import Mathlib

/-!
Verification of the shared PVF (parachain validation function) primitives of
`polkadot/node/core/pvf/common/src/lib.rs`: the length-prefixed framing codec
(`framed_send_blocking` / `framed_recv_blocking`), the logical version tagger
(`logical_node_version`), and the `SecurityStatus` / `WorkerHandshake` types
exchanged during the worker handshake, as a shallow embedding in Lean.

Byte streams are modelled as lists of bytes (`Fin 256`); a blocking read from
a stream that hits end-of-file before the buffer is full is an I/O error,
modelled as `none`.
-/

namespace PvfCommon

/-- A byte on the worker IPC channel. -/
abbrev Byte := Fin 256

/-- `mem::size_of::<usize>()`: the machine word is 8 bytes on the 64-bit
platforms the node targets, so the framing length prefix is 8 bytes wide. -/
def USIZE_BYTES : Nat := 8

/-- `usize::to_le_bytes`: little-endian encoding of `n` into exactly `w`
bytes (for `w = USIZE_BYTES` this encodes `n % 2^64`, matching the fixed
width of `usize`). -/
def to_le_bytes : Nat → Nat → List Byte
  | 0, _ => []
  | w + 1, n => ⟨n % 256, Nat.mod_lt n (by decide)⟩ :: to_le_bytes w (n / 256)

/-- `usize::from_le_bytes`: little-endian decoding of a byte list. -/
def from_le_bytes : List Byte → Nat
  | [] => 0
  | b :: bs => b.val + 256 * from_le_bytes bs

/-- `Read::read_exact` over an in-memory stream: succeed with exactly `n`
bytes and the unread remainder, or fail (`ErrorKind::UnexpectedEof`) when
the stream ends first. A failed read never yields a partial buffer. -/
def read_exact (n : Nat) (s : List Byte) : Option (List Byte × List Byte) :=
  if n ≤ s.length then some (s.take n, s.drop n) else none

/-- `framed_send_blocking`: writes `buf.len().to_le_bytes()` then `buf`.
The result is the full byte sequence written to the channel. -/
def framed_send_blocking (buf : List Byte) : List Byte :=
  to_le_bytes USIZE_BYTES buf.length ++ buf

/-- `framed_recv_blocking`: reads exactly a machine-word little-endian length
prefix, then exactly that many payload bytes. Returns the payload together
with the unread remainder of the stream; `none` is the I/O error of either
`read_exact`. -/
def framed_recv_blocking (s : List Byte) : Option (List Byte × List Byte) :=
  match read_exact USIZE_BYTES s with
  | none => none
  | some (len_buf, rest) => read_exact (from_le_bytes len_buf) rest

/-- `RUNTIME_PREFIX` constant: tag for the runtime (wasmtime) version. -/
def RUNTIME_PREFIX : String := "wasmtime_v"

/-- `NODE_PREFIX` constant: tag for the node version. -/
def NODE_PREFIX : String := "polkadot_v"

/-- Modelled from the spec: `NODE_VERSION` is the node's own compiled-in
build version, defined in `polkadot-node-primitives` which is outside the
sources here; the spec treats it as an opaque build-time string, so it is
modelled as an arbitrary concrete version string. -/
def NODE_VERSION : String := "1.16.0"

/-- `logical_node_version` with the compiled-in node build version made an
explicit argument, so that statements about two different node builds (which
differ only in their compiled-in `NODE_VERSION`) can be expressed. The body
is the embedding of
`format!("{}{}_{}{}", RUNTIME_PREFIX, runtime_version, NODE_PREFIX, NODE_VERSION)`. -/
def logical_node_version_with (runtime_version node_version : String) : String :=
  RUNTIME_PREFIX ++ runtime_version ++ "_" ++ NODE_PREFIX ++ node_version

/-- `logical_node_version`: the logical PVF version used for artifact
version-checking, for the current build's `NODE_VERSION`. -/
def logical_node_version (runtime_version : String) : String :=
  logical_node_version_with runtime_version NODE_VERSION

/-- `SecurityStatus`: status of security features on the current system. -/
structure SecurityStatus where
  secure_validator_mode : Bool
  can_enable_landlock : Bool
  can_enable_seccomp : Bool
  can_unshare_user_namespace_and_change_root : Bool
deriving DecidableEq

/-- `SecurityStatus` derives `Default` in the source; Rust's `bool::default()`
is `false`, so the derived default has every field `false`. -/
def SecurityStatus.default : SecurityStatus :=
  ⟨false, false, false, false⟩

/-- `WorkerHandshake`: a handshake with information for the worker. -/
structure WorkerHandshake where
  security_status : SecurityStatus
deriving DecidableEq

/-- SCALE encoding of a `bool` (parity-scale-codec): one byte, `0x01` for
`true`, `0x00` for `false`. -/
def scale_encode_bool (b : Bool) : List Byte :=
  [if b then (1 : Fin 256) else (0 : Fin 256)]

/-- SCALE decoding of a `bool`: accepts exactly the bytes `0x00` and `0x01`,
anything else is a decode error. -/
def scale_decode_bool : List Byte → Option (Bool × List Byte)
  | [] => none
  | b :: rest =>
    if b.val = 0 then some (false, rest)
    else if b.val = 1 then some (true, rest)
    else none

/-- Derived SCALE `Encode` for `SecurityStatus`: fields in declaration
order. -/
def SecurityStatus.scale_encode (s : SecurityStatus) : List Byte :=
  scale_encode_bool s.secure_validator_mode ++
    scale_encode_bool s.can_enable_landlock ++
    scale_encode_bool s.can_enable_seccomp ++
    scale_encode_bool s.can_unshare_user_namespace_and_change_root

/-- Derived SCALE `Decode` for `SecurityStatus`: fields in declaration
order, returning the unconsumed remainder. -/
def SecurityStatus.scale_decode (bytes : List Byte) :
    Option (SecurityStatus × List Byte) := do
  let (svm, r1) ← scale_decode_bool bytes
  let (ll, r2) ← scale_decode_bool r1
  let (sec, r3) ← scale_decode_bool r2
  let (uns, r4) ← scale_decode_bool r3
  some (⟨svm, ll, sec, uns⟩, r4)

/-- Derived SCALE `Encode` for `WorkerHandshake`: its single field. -/
def WorkerHandshake.scale_encode (h : WorkerHandshake) : List Byte :=
  h.security_status.scale_encode

/-- Derived SCALE `Decode` for `WorkerHandshake`. -/
def WorkerHandshake.scale_decode (bytes : List Byte) :
    Option (WorkerHandshake × List Byte) := do
  let (s, r) ← SecurityStatus.scale_decode bytes
  some (⟨s⟩, r)

/-- Modelled from the spec: whether the probed capabilities satisfy Secure
Validator Mode — "if `secure_validator_mode` is requested and any of the
three capability probes returns false, worker startup fails fast". The
enforcement code itself lives in the worker/host crates, outside the sources
here. -/
def security_requirements_met (s : SecurityStatus) : Bool :=
  !s.secure_validator_mode ||
    (s.can_enable_landlock && s.can_enable_seccomp &&
      s.can_unshare_user_namespace_and_change_root)

/-- Modelled from the spec: the outcome of worker startup — either a fatal
configuration error before any job, or a worker ready to receive jobs. -/
inductive WorkerStartup where
  | fatalConfigError : WorkerStartup
  | ready : WorkerStartup
deriving DecidableEq

/-- Modelled from the spec: worker startup fails fast with a fatal
configuration error exactly when Secure Validator Mode is requested but a
required capability is unavailable. -/
def worker_startup (s : SecurityStatus) : WorkerStartup :=
  if security_requirements_met s then WorkerStartup.ready
  else WorkerStartup.fatalConfigError

/-- Modelled from the spec: the orchestrator dispatches jobs only to a
worker whose startup reached `ready`; a worker that failed startup never
receives a job. -/
def jobs_dispatchable (s : SecurityStatus) : Bool :=
  match worker_startup s with
  | WorkerStartup.ready => true
  | WorkerStartup.fatalConfigError => false

/-! ### Helper lemmas -/

theorem to_le_bytes_length (w n : Nat) : (to_le_bytes w n).length = w := by
  induction w generalizing n with
  | zero => rfl
  | succ w ih => simp [to_le_bytes, ih]

theorem from_le_to_le (w n : Nat) :
    from_le_bytes (to_le_bytes w n) = n % 256 ^ w := by
  induction w generalizing n with
  | zero => simp [to_le_bytes, from_le_bytes, Nat.mod_one]
  | succ w ih =>
    have h : (256 : Nat) ^ (w + 1) = 256 * 256 ^ w := by ring
    rw [to_le_bytes, from_le_bytes, ih, h, Nat.mod_mul]

theorem read_exact_append (a b : List Byte) :
    read_exact a.length (a ++ b) = some (a, b) := by
  unfold read_exact
  rw [if_pos (by simp), List.take_left, List.drop_left]

theorem framed_recv_send (p rest : List Byte) (h : p.length < 256 ^ USIZE_BYTES) :
    framed_recv_blocking (framed_send_blocking p ++ rest) = some (p, rest) := by
  unfold framed_send_blocking framed_recv_blocking
  rw [List.append_assoc]
  have h1 : read_exact USIZE_BYTES
      (to_le_bytes USIZE_BYTES p.length ++ (p ++ rest)) =
      some (to_le_bytes USIZE_BYTES p.length, p ++ rest) := by
    have h2 := read_exact_append (to_le_bytes USIZE_BYTES p.length) (p ++ rest)
    rwa [to_le_bytes_length] at h2
  rw [h1]
  show read_exact (from_le_bytes (to_le_bytes USIZE_BYTES p.length)) (p ++ rest) =
    some (p, rest)
  rw [from_le_to_le, Nat.mod_eq_of_lt h]
  exact read_exact_append p rest

/-- Closed form of `framed_recv_blocking`: on a stream holding at least the
8-byte length prefix and the announced payload it returns that payload and
the remainder; on a stream that ends earlier it is an I/O error. -/
theorem framed_recv_blocking_eq (s : List Byte) :
    framed_recv_blocking s =
      if USIZE_BYTES + from_le_bytes (s.take USIZE_BYTES) ≤ s.length then
        some ((s.drop USIZE_BYTES).take (from_le_bytes (s.take USIZE_BYTES)),
          (s.drop USIZE_BYTES).drop (from_le_bytes (s.take USIZE_BYTES)))
      else none := by
  unfold framed_recv_blocking read_exact
  have hd : (s.drop USIZE_BYTES).length = s.length - USIZE_BYTES :=
    List.length_drop _ _
  by_cases h8 : USIZE_BYTES ≤ s.length
  · rw [if_pos h8]
    show (if from_le_bytes (s.take USIZE_BYTES) ≤ (s.drop USIZE_BYTES).length
        then some ((s.drop USIZE_BYTES).take (from_le_bytes (s.take USIZE_BYTES)),
          (s.drop USIZE_BYTES).drop (from_le_bytes (s.take USIZE_BYTES)))
        else none) = _
    by_cases hc : USIZE_BYTES + from_le_bytes (s.take USIZE_BYTES) ≤ s.length
    · rw [if_pos (by rw [hd]; omega), if_pos hc]
    · rw [if_neg (by rw [hd]; omega), if_neg hc]
  · rw [if_neg h8]
    show none = _
    rw [if_neg (by omega)]

/-! ### Claims about the framing codec -/

/-- C1: for every byte payload `p` (the empty payload and payloads that look
like a length prefix included) that fits in a `usize` length, receiving from
a stream holding exactly the bytes `framed_send_blocking` wrote for `p`
returns `p` and consumes the whole stream. -/
theorem framed_roundtrip (p : List Byte) (h : p.length < 256 ^ USIZE_BYTES) :
    framed_recv_blocking (framed_send_blocking p) = some (p, []) := by
  have h1 := framed_recv_send p [] h
  rwa [List.append_nil] at h1

/-- Witness for C1, on a payload that is itself a plausible length prefix. -/
theorem framed_roundtrip_witness :
    ([8, 0, 0, 0, 0, 0, 0, 0] : List Byte).length < 256 ^ USIZE_BYTES ∧
    framed_recv_blocking (framed_send_blocking [8, 0, 0, 0, 0, 0, 0, 0]) =
      some (([8, 0, 0, 0, 0, 0, 0, 0] : List Byte), []) :=
  ⟨by decide, framed_roundtrip [8, 0, 0, 0, 0, 0, 0, 0] (by decide)⟩

/-- C2: `framed_recv_blocking` errors exactly when the stream ends before the
8-byte prefix plus the announced payload is available, and whenever it does
return a payload, that payload has exactly the announced length and the
stream decomposes as prefix, payload, unread rest — never a shorter payload,
never a resynchronization. -/
theorem framed_recv_error_on_short (s : List Byte) :
    (framed_recv_blocking s = none ↔
      s.length < USIZE_BYTES + from_le_bytes (s.take USIZE_BYTES)) ∧
    (∀ p r, framed_recv_blocking s = some (p, r) →
      p.length = from_le_bytes (s.take USIZE_BYTES) ∧
      s = s.take USIZE_BYTES ++ (p ++ r)) := by
  rw [framed_recv_blocking_eq]
  by_cases hc : USIZE_BYTES + from_le_bytes (s.take USIZE_BYTES) ≤ s.length
  · rw [if_pos hc]
    refine ⟨⟨(fun hx => by cases hx), (fun hlt => by omega)⟩, ?_⟩
    intro p r hpr
    injection hpr with hpair
    injection hpair with hp hr
    subst hp
    subst hr
    constructor
    · rw [List.length_take, List.length_drop]
      omega
    · rw [List.take_append_drop, List.take_append_drop]
  · rw [if_neg hc]
    refine ⟨⟨(fun _ => by omega), (fun _ => rfl)⟩, ?_⟩
    intro p r hpr
    cases hpr

/-- Witness for C2: a stream whose prefix announces 5 payload bytes but which
ends after 2 of them is an I/O error. -/
theorem framed_recv_error_on_short_witness :
    framed_recv_blocking ([5, 0, 0, 0, 0, 0, 0, 0, 1, 2] : List Byte) = none :=
  (framed_recv_error_on_short [5, 0, 0, 0, 0, 0, 0, 0, 1, 2]).1.mpr (by decide)

/-- C3: the bytes `framed_send_blocking` writes for `buf` are exactly
`size_of::<usize>()` prefix bytes followed by `buf` and nothing else, and the
prefix is the fixed-width little-endian encoding of `buf`'s length. -/
theorem framed_send_wire_format (buf : List Byte)
    (h : buf.length < 256 ^ USIZE_BYTES) :
    (framed_send_blocking buf).length = USIZE_BYTES + buf.length ∧
    (framed_send_blocking buf).take USIZE_BYTES =
      to_le_bytes USIZE_BYTES buf.length ∧
    from_le_bytes ((framed_send_blocking buf).take USIZE_BYTES) = buf.length ∧
    (framed_send_blocking buf).drop USIZE_BYTES = buf := by
  have hL : (to_le_bytes USIZE_BYTES buf.length).length = USIZE_BYTES :=
    to_le_bytes_length _ _
  have htake : (framed_send_blocking buf).take USIZE_BYTES =
      to_le_bytes USIZE_BYTES buf.length := by
    have h1 := List.take_left (to_le_bytes USIZE_BYTES buf.length) buf
    rwa [hL] at h1
  have hdrop : (framed_send_blocking buf).drop USIZE_BYTES = buf := by
    have h1 := List.drop_left (to_le_bytes USIZE_BYTES buf.length) buf
    rwa [hL] at h1
  refine ⟨?_, htake, ?_, hdrop⟩
  · unfold framed_send_blocking
    rw [List.length_append, hL]
  · rw [htake, from_le_to_le, Nat.mod_eq_of_lt h]

/-- Witness for C3. -/
theorem framed_send_wire_format_witness :
    ([10, 20, 30] : List Byte).length < 256 ^ USIZE_BYTES ∧
    ((framed_send_blocking [10, 20, 30]).length =
        USIZE_BYTES + ([10, 20, 30] : List Byte).length ∧
      (framed_send_blocking [10, 20, 30]).take USIZE_BYTES =
        to_le_bytes USIZE_BYTES ([10, 20, 30] : List Byte).length ∧
      from_le_bytes ((framed_send_blocking [10, 20, 30]).take USIZE_BYTES) =
        ([10, 20, 30] : List Byte).length ∧
      (framed_send_blocking [10, 20, 30]).drop USIZE_BYTES = [10, 20, 30]) :=
  ⟨by decide, framed_send_wire_format [10, 20, 30] (by decide)⟩

/-- C10: receiving from a well-formed framed message followed by arbitrary
trailing bytes returns the framed payload and leaves exactly the trailing
bytes unread, so back-to-back framed messages decode in order. -/
theorem framed_recv_leaves_trailing (p rest : List Byte)
    (h : p.length < 256 ^ USIZE_BYTES) :
    framed_recv_blocking (framed_send_blocking p ++ rest) = some (p, rest) :=
  framed_recv_send p rest h

/-- Witness for C10. -/
theorem framed_recv_leaves_trailing_witness :
    ([1, 2, 3] : List Byte).length < 256 ^ USIZE_BYTES ∧
    framed_recv_blocking (framed_send_blocking [1, 2, 3] ++ [9, 9]) =
      some (([1, 2, 3] : List Byte), [9, 9]) :=
  ⟨by decide, framed_recv_leaves_trailing [1, 2, 3] [9, 9] (by decide)⟩

/-! ### Claims about the logical version tagger -/

theorem string_ext {s t : String} (h : s.data = t.data) : s = t := by
  cases s
  cases t
  exact congrArg String.mk h

theorem string_data_append (s t : String) :
    (s ++ t).data = s.data ++ t.data := by
  cases s
  cases t
  rfl

theorem runtime_tag_data : RUNTIME_PREFIX.data = "wasmtime_v".data := rfl

theorem underscore_node_tag_data :
    "_".data ++ NODE_PREFIX.data = "_polkadot_v".data := by decide

theorem logical_node_version_with_data (rv nv : String) :
    (logical_node_version_with rv nv).data =
      "wasmtime_v".data ++ (rv.data ++ ("_polkadot_v".data ++ nv.data)) := by
  unfold logical_node_version_with
  rw [string_data_append, string_data_append, string_data_append,
    string_data_append, List.append_assoc, List.append_assoc,
    List.append_assoc, runtime_tag_data,
    ← List.append_assoc ("_".data), underscore_node_tag_data]

/-- C4: `logical_node_version rv` is exactly the concatenation
`"wasmtime_v" ++ rv ++ "_polkadot_v" ++ NODE_VERSION`, the
`<runtime-tag><runtime-version>_<node-tag><node-version>` shape. -/
theorem logical_node_version_shape (rv : String) :
    logical_node_version rv =
      "wasmtime_v" ++ rv ++ "_polkadot_v" ++ NODE_VERSION := by
  unfold logical_node_version
  apply string_ext
  rw [logical_node_version_with_data, string_data_append, string_data_append,
    string_data_append, List.append_assoc, List.append_assoc]

/-- C5 counterexample: two distinct (runtime version, node version) pairs
that produce the same logical version string, because the runtime version
may itself contain the node tag separator. -/
theorem logical_node_version_collision :
    logical_node_version_with "1_polkadot_v2" "3" =
      logical_node_version_with "1" "2_polkadot_v3" ∧
    ¬("1_polkadot_v2" = "1" ∧ "3" = "2_polkadot_v3") := by
  constructor
  · decide
  · decide

/-- C5 amended: the tagger is injective in each component separately — with
the node version fixed, distinct runtime versions give distinct outputs, and
with the runtime version fixed, distinct node versions give distinct outputs
(distinct pairs differing in both components may still collide). -/
theorem logical_node_version_componentwise_injective
    (rv₁ nv₁ rv₂ nv₂ : String) :
    (nv₁ = nv₂ → rv₁ ≠ rv₂ →
      logical_node_version_with rv₁ nv₁ ≠ logical_node_version_with rv₂ nv₂) ∧
    (rv₁ = rv₂ → nv₁ ≠ nv₂ →
      logical_node_version_with rv₁ nv₁ ≠ logical_node_version_with rv₂ nv₂) := by
  constructor
  · intro hnv hrv heq
    apply hrv
    apply string_ext
    have hd := congrArg String.data heq
    rw [logical_node_version_with_data, logical_node_version_with_data,
      hnv] at hd
    exact List.append_cancel_right (List.append_cancel_left hd)
  · intro hrv hnv heq
    apply hnv
    apply string_ext
    have hd := congrArg String.data heq
    rw [logical_node_version_with_data, logical_node_version_with_data,
      hrv] at hd
    exact List.append_cancel_left
      (List.append_cancel_left (List.append_cancel_left hd))

/-- Witness for the amended C5. -/
theorem logical_node_version_componentwise_injective_witness :
    logical_node_version_with "1.0.0" "2.0.0" ≠
      logical_node_version_with "1.0.1" "2.0.0" ∧
    logical_node_version_with "1.0.0" "2.0.0" ≠
      logical_node_version_with "1.0.0" "2.0.1" :=
  ⟨(logical_node_version_componentwise_injective "1.0.0" "2.0.0" "1.0.1"
      "2.0.0").1 rfl (by decide),
    (logical_node_version_componentwise_injective "1.0.0" "2.0.0" "1.0.0"
      "2.0.1").2 rfl (by decide)⟩

/-- C6: `logical_node_version` is a pure function of its argument — two
calls with equal runtime versions return equal strings (in this embedding it
is a total function with no state and no I/O). -/
theorem logical_node_version_deterministic (rv₁ rv₂ : String)
    (h : rv₁ = rv₂) :
    logical_node_version rv₁ = logical_node_version rv₂ :=
  congrArg logical_node_version h

/-- Witness for C6. -/
theorem logical_node_version_deterministic_witness :
    logical_node_version "1.0.0" = logical_node_version "1.0.0" :=
  logical_node_version_deterministic "1.0.0" "1.0.0" rfl

/-! ### Claims about `SecurityStatus` and the handshake -/

/-- C7: when Secure Validator Mode is requested and any of the three
capability flags is false, worker startup is a fatal configuration error and
no job can be dispatched to that worker. -/
theorem secure_mode_missing_capability_fails_fast (s : SecurityStatus)
    (hm : s.secure_validator_mode = true)
    (hcap : s.can_enable_landlock = false ∨ s.can_enable_seccomp = false ∨
      s.can_unshare_user_namespace_and_change_root = false) :
    worker_startup s = WorkerStartup.fatalConfigError ∧
      jobs_dispatchable s = false := by
  obtain ⟨a, b, c, d⟩ := s
  revert hm hcap
  cases a <;> cases b <;> cases c <;> cases d <;> decide

/-- Witness for C7: secure mode requested but seccomp unavailable. -/
theorem secure_mode_missing_capability_fails_fast_witness :
    ((⟨true, true, false, true⟩ : SecurityStatus).secure_validator_mode =
        true ∧
      ((⟨true, true, false, true⟩ : SecurityStatus).can_enable_landlock =
          false ∨
        (⟨true, true, false, true⟩ : SecurityStatus).can_enable_seccomp =
          false ∨
        (⟨true, true, false, true⟩ :
            SecurityStatus).can_unshare_user_namespace_and_change_root =
          false)) ∧
    (worker_startup ⟨true, true, false, true⟩ =
        WorkerStartup.fatalConfigError ∧
      jobs_dispatchable ⟨true, true, false, true⟩ = false) :=
  ⟨⟨rfl, Or.inr (Or.inl rfl)⟩,
    secure_mode_missing_capability_fails_fast ⟨true, true, false, true⟩ rfl
      (Or.inr (Or.inl rfl))⟩

/-- C8: SCALE-decoding the SCALE-encoding of a `WorkerHandshake` wrapping
any `SecurityStatus` `s` yields the handshake with `security_status = s` and
no leftover bytes. -/
theorem workerHandshake_scale_roundtrip (s : SecurityStatus) :
    WorkerHandshake.scale_decode (WorkerHandshake.scale_encode ⟨s⟩) =
      some (⟨s⟩, []) := by
  obtain ⟨a, b, c, d⟩ := s
  cases a <;> cases b <;> cases c <;> cases d <;> decide

/-- C9: the derived `SecurityStatus` default has all four booleans false:
non-strict mode with no hardening capability claimed. -/
theorem securityStatus_default_all_false :
    SecurityStatus.default.secure_validator_mode = false ∧
    SecurityStatus.default.can_enable_landlock = false ∧
    SecurityStatus.default.can_enable_seccomp = false ∧
    SecurityStatus.default.can_unshare_user_namespace_and_change_root =
      false :=
  ⟨rfl, rfl, rfl, rfl⟩

end PvfCommon
